import Mathlib

/-!
Shallow embedding of `EnergyLeveller.py` (energy level diagram tool):
the input-format parser (`ReadInput`), the state registry (`Diagram.AddState`),
the layout engine (`Diagram.MakeLeftRightPoints`) and the pure geometric /
annotation output of `Diagram.Draw`.

Python floats are modelled by `ℚ` (every operation the tool performs on the
values the claims touch is exact field arithmetic), Python ints by `ℤ`.
Python string operations (`strip`, `upper`, `split`, `float`, `int`) are
modelled by executable Lean functions over the character list of a `String`.
Raised Python exceptions are modelled by `Except PErr`; printed warnings are
accumulated in a list.
-/

namespace EnergyLeveller

/-- ASCII whitespace removed by Python's `str.strip()`. -/
def isPySpace (c : Char) : Bool :=
  c == ' ' || c == '\t' || c == '\n' || c == '\r' || c == '\x0b' || c == '\x0c'

/-- `str.strip()` on the character list. -/
def stripList (l : List Char) : List Char :=
  ((l.dropWhile isPySpace).reverse.dropWhile isPySpace).reverse

/-- Python `s.strip()`. -/
def pyStrip (s : String) : String := ⟨stripList s.data⟩

/-- Python `s.upper()` (the tool only feeds it ASCII). -/
def pyUpper (s : String) : String := ⟨s.data.map Char.toUpper⟩

/-- Split a character list at every occurrence of `sep`; like Python
`str.split(sep)` this never returns an empty list. -/
def splitChar (sep : Char) : List Char → List (List Char)
  | [] => [[]]
  | c :: rest =>
    let r := splitChar sep rest
    if c == sep then [] :: r
    else (c :: r.headI) :: r.tail

/-- Python `s.split(sep)` for a one-character separator. -/
def pySplit (s : String) (sep : Char) : List String :=
  (splitChar sep s.data).map (fun l => ⟨l⟩)

/-- Value of an ASCII digit. -/
def digVal (c : Char) : Option ℕ :=
  if '0' ≤ c ∧ c ≤ '9' then some (c.toNat - 48) else none

def isDigitChar (c : Char) : Bool := (digVal c).isSome

/-- Read a digit string left to right, accumulating the value. -/
def digitsVal : List Char → ℕ → Option ℕ
  | [], acc => some acc
  | c :: rest, acc =>
    match digVal c with
    | some d => digitsVal rest (acc * 10 + d)
    | none => none

/-- Unsigned decimal literal: `123`, `1.5`, `1.`, `.5`. -/
def parseUnsignedFloat (l : List Char) : Option ℚ :=
  let ip := l.takeWhile isDigitChar
  let rest := l.dropWhile isDigitChar
  match rest with
  | [] =>
    if ip.isEmpty then none
    else (digitsVal ip 0).map (fun n => (n : ℚ))
  | c :: frac =>
    if c == '.' ∧ frac.all isDigitChar ∧ ¬(ip.isEmpty ∧ frac.isEmpty) then
      match digitsVal ip 0, digitsVal frac 0 with
      | some n, some f => some ((n : ℚ) + (f : ℚ) / (10 : ℚ) ^ frac.length)
      | _, _ => none
    else none

/-- Python `float(s)` for the decimal literals the input format uses
(optional surrounding whitespace, optional sign, digits with an optional
fractional part); `none` models the `ValueError` raise. -/
def pyFloat (s : String) : Option ℚ :=
  match stripList s.data with
  | '+' :: rest => parseUnsignedFloat rest
  | '-' :: rest => (parseUnsignedFloat rest).map Neg.neg
  | l => parseUnsignedFloat l

/-- Python `int(s)`: optional surrounding whitespace, optional sign, digits;
`none` models the `ValueError` raise. -/
def pyInt (s : String) : Option ℤ :=
  let conv : List Char → Option ℤ := fun l =>
    if l.isEmpty then none
    else if l.all isDigitChar then (digitsVal l 0).map (fun n => (n : ℤ))
    else none
  match stripList s.data with
  | '+' :: rest => conv rest
  | '-' :: rest => (conv rest).map Neg.neg
  | l => conv l

/-- Python `needle in hay` on strings. -/
def containsSub (needle : List Char) : List Char → Bool
  | [] => needle.isEmpty
  | c :: rest => needle.isPrefixOf (c :: rest) || containsSub needle rest

/-- Python `s.endswith(suf)`. -/
def strEndsWith (s suf : String) : Bool := suf.data.isSuffixOf s.data

/-- `State.__init__`: one energy-level segment, with the source's defaults.
`rawEnergy` models the Python attribute `_energy`; an `image` is its pixel
shape `(rows, cols)` (the only part of the raster the core reads). -/
structure State where
  name : String := ""
  color : String := "k"
  labelColor : String := "k"
  linksTo : String := ""
  label : String := ""
  legend : Option String := none
  rawEnergy : ℚ := 0
  energy_shift : ℚ := 0
  normalisedPosition : ℚ := 0
  column : ℤ := 1
  leftPointx : ℚ := 0
  leftPointy : ℚ := 0
  rightPointx : ℚ := 0
  rightPointy : ℚ := 0
  labelOffset : ℚ × ℚ := (0, 0)
  textOffset : ℚ × ℚ := (0, 0)
  imageOffset : ℚ × ℚ := (0, 0)
  imageScale : ℚ := 1
  image : Option (ℕ × ℕ) := none
  show_energy : Bool := true
  deriving Repr, DecidableEq, Inhabited

/-- The `energy` property: stored raw energy plus the per-state shift. -/
def State.energy (s : State) : ℚ := s.rawEnergy + s.energy_shift

/-- Warnings the parser prints without stopping (one constructor per `print`
site; the line numbers the prints interpolate are not modelled). -/
inductive Warn where
  | unexpectedClose
  | badColumn
  | badEnergy
  | badEnergyShift
  | badLabelOffset
  | badTextOffset
  | badImageOffset
  | badImageScale
  | smallImageScale
  | ignoredBlockLine
  | ignoredGlobalLine
  | badWidth
  | badHeight
  | outputSuffixAdded
  | badFontSize
  | badEnergyRange
  | unknownGlobal
  | missingFinalClose
  deriving Repr, DecidableEq

/-- Python exceptions that escape or abort `ReadInput`. -/
inductive PErr where
  | valueError (msg : String)
  | unboundLocalError
  | ioError (msg : String)
  | indexError
  | assertionError (msg : String)
  deriving Repr, DecidableEq

/-- The mutable locals of `ReadInput`'s line loop. `outName = none` models the
Python local never having been assigned. -/
structure ParserState where
  stateBlock : Bool := false
  statesList : List State := []
  width : ℤ := 0
  height : ℤ := 0
  global_shift : ℚ := 0
  fontSize : ℤ := 8
  energyUnits : String := ""
  y_lims : Option (List ℚ) := none
  outName : Option String := none
  warnings : List Warn := []
  deriving Repr, DecidableEq

/-- Record a printed warning. -/
def addWarn (ps : ParserState) (w : Warn) : ParserState :=
  {ps with warnings := ps.warnings ++ [w]}

/-- `statesList[-1].f = ...`: mutate the most recently appended state. -/
def modifyLast (f : State → State) : List State → List State
  | [] => []
  | [s] => [f s]
  | s :: rest => s :: modifyLast f rest

/-- `statesList[-1].field = ...`: mutate the most recently appended state of
the parser's working list. -/
def setLastState (ps : ParserState) (f : State → State) : ParserState :=
  {ps with statesList := modifyLast f ps.statesList}

/-- The `IMAGE ... SCALE` assignment body: warn when the value is below the
0.1 floor, then clamp. -/
def applyImageScale (ps : ParserState) (sc : ℚ) : ParserState :=
  let ps' := if sc < (1 : ℚ)/10 then addWarn ps .smallImageScale else ps
  {ps' with
    statesList := modifyLast (fun s => {s with imageScale := max sc ((1 : ℚ)/10)})
      ps'.statesList}

/-- The recognized state-block keys (one constructor per `elif` branch of
the source's block parser, plus `otherK` for the ignore case). -/
inductive BlockKey where
  | nameK
  | colorK
  | labelK
  | labelColorK
  | linksK
  | columnK
  | energyK
  | shiftK
  | labelOffK
  | textOffK
  | legendK
  | imageK
  | imageOffK
  | imageScaleK
  | hideK
  | otherK
  deriving Repr, DecidableEq

/-- The `elif` chain of the source's block branch as a key classifier, in
source order, with the same exact-string and substring matches. -/
def classifyKey (k : String) : BlockKey :=
  if k == "NAME" then .nameK
  else if k == "TEXTCOLOR" || k == "TEXTCOLOUR" || k == "TEXT-COLOUR" || k == "TEXT-COLOR"
      || k == "TEXT COLOUR" || k == "TEXT COLOR" then .colorK
  else if k == "LABEL" then .labelK
  else if k == "LABELCOLOR" || k == "LABELCOLOUR" then .labelColorK
  else if k == "LINKSTO" || k == "LINKS TO" then .linksK
  else if k == "COLUMN" then .columnK
  else if k == "ENERGY" then .energyK
  else if k == "ENERGY SHIFT" then .shiftK
  else if k == "LABELOFFSET" || k == "LABEL OFFSET" || k == "LABEL-OFFSET" then .labelOffK
  else if k == "TEXTOFFSET" || k == "TEXT OFFSET" || k == "TEXT-OFFSET" then .textOffK
  else if k == "LEGEND" then .legendK
  else if k == "IMAGE" then .imageK
  else if containsSub "IMAGE".data k.data && containsSub "OFFSET".data k.data then .imageOffK
  else if containsSub "IMAGE".data k.data && containsSub "SCALE".data k.data then .imageScaleK
  else if containsSub "HIDE".data k.data && containsSub "ENERGY".data k.data then .hideK
  else .otherK

/-- The keyed dispatch of a state-block line.  `k` is `raw[0]` upper-cased
and stripped, `v?` the stripped `raw[1]` when it exists (accessing it when
absent is Python's `IndexError`), `lastTok` is `raw[-1]` after those two
in-place updates and `labelTail` the list `raw[1:]` (re-joined with `" = "`
by the `LABEL` branch).  `env` models the filesystem for `plt.imread`:
path to pixel shape, `none` when the read fails. -/
def blockAssign (env : String → Option (ℕ × ℕ)) (ps : ParserState) (k : String)
    (v? : Option String) (lastTok : String) (labelTail : List String) :
    Except PErr ParserState :=
  match classifyKey k with
  | .nameK =>
    match v? with
    | none => .error .indexError
    | some v => .ok (setLastState ps fun s => {s with name := pyUpper v})
  | .colorK =>
    match v? with
    | none => .error .indexError
    | some v => .ok (setLastState ps fun s => {s with color := v})
  | .labelK =>
    .ok (setLastState ps fun s => {s with label := String.intercalate " = " labelTail})
  | .labelColorK =>
    match v? with
    | none => .error .indexError
    | some v => .ok (setLastState ps fun s => {s with labelColor := v})
  | .linksK =>
    match v? with
    | none => .error .indexError
    | some v => .ok (setLastState ps fun s => {s with linksTo := pyUpper v})
  | .columnK =>
    match v? with
    | none => .error .indexError
    | some v =>
      match pyInt v with
      | some n => .ok (setLastState ps fun s => {s with column := n - 1})
      | none => .ok (addWarn ps .badColumn)
  | .energyK =>
    match pyFloat lastTok with
    | some e => .ok (setLastState ps fun s => {s with rawEnergy := e})
    | none => .ok (addWarn ps .badEnergy)
  | .shiftK =>
    match pyFloat lastTok with
    | some e => .ok (setLastState ps fun s => {s with energy_shift := e})
    | none => .ok (addWarn ps .badEnergyShift)
  | .labelOffK =>
    match v? with
    | none => .error .indexError
    | some v =>
      match pyFloat (pySplit v ',').headI with
      | none => .ok (addWarn ps .badLabelOffset)
      | some tx =>
        match (pySplit v ',').get? 1 with
        | none => .error .indexError
        | some p2 =>
          match pyFloat p2 with
          | none => .ok (addWarn ps .badLabelOffset)
          | some ty => .ok (setLastState ps fun s => {s with labelOffset := (tx, ty)})
  | .textOffK =>
    match v? with
    | none => .error .indexError
    | some v =>
      match pyFloat (pySplit v ',').headI with
      | none => .ok (addWarn ps .badTextOffset)
      | some tx =>
        match (pySplit v ',').get? 1 with
        | none => .error .indexError
        | some p2 =>
          match pyFloat p2 with
          | none => .ok (addWarn ps .badTextOffset)
          | some ty => .ok (setLastState ps fun s => {s with textOffset := (tx, ty)})
  | .legendK =>
    match v? with
    | none => .error .indexError
    | some v => .ok (setLastState ps fun s => {s with legend := some v})
  | .imageK =>
    match env lastTok with
    | some shp => .ok (setLastState ps fun s => {s with image := some shp})
    | none => .error (.ioError "Failed to find image")
  | .imageOffK =>
    match v? with
    | none => .error .indexError
    | some v =>
      match pyFloat (pySplit v ',').headI with
      | none => .ok (addWarn ps .badImageOffset)
      | some tx =>
        match (pySplit v ',').get? 1 with
        | none => .error .indexError
        | some p2 =>
          match pyFloat p2 with
          | none => .ok (addWarn ps .badImageOffset)
          | some ty => .ok (setLastState ps fun s => {s with imageOffset := (tx, ty)})
  | .imageScaleK =>
    match v? with
    | none => .error .indexError
    | some v =>
      match pyFloat v with
      | none => .ok (addWarn ps .badImageScale)
      | some sc => .ok (applyImageScale ps sc)
  | .hideK =>
    .ok (setLastState ps fun s => {s with show_energy := false})
  | .otherK => .ok (addWarn ps .ignoredBlockLine)

/-- A line inside a `\x7b ... \x7d` state block (already stripped, not a
brace or comment): split on `=`, apply the two in-place updates the source
performs on `raw`, and dispatch on the key. -/
def processBlockLine (env : String → Option (ℕ × ℕ)) (ps : ParserState) (t : String) :
    Except PErr ParserState :=
  let raw := pySplit t '='
  -- raw[0] = raw[0].upper().strip()
  let k := pyStrip (pyUpper raw.headI)
  -- try: raw[1] = raw[1].strip() except IndexError: pass
  let v? := (raw.get? 1).map pyStrip
  -- the list raw after those two in-place updates
  let raw' := k :: (match v?, raw with
    | some v, _ :: _ :: rest => v :: rest
    | _, _ => [])
  blockAssign env ps k v? raw'.getLastI raw'.tail

/-- `[float(l) for l in parts]`: all-or-nothing float conversion; `none`
models the `ValueError` the comprehension raises on the first bad element. -/
def allFloats : List String → Option (List ℚ)
  | [] => some []
  | s :: rest =>
    match pyFloat s with
    | some q => (allFloats rest).map (q :: ·)
    | none => none

/-- A `key = value` line in the global region (already stripped, not a brace
or comment).  Note `GLOBAL-SHIFT`'s `float` call is not guarded by a
`try`/`except`, so a bad value raises. -/
def processGlobalLine (ps : ParserState) (t : String) : Except PErr ParserState :=
  let raw := pySplit t '='
  if raw.length ≠ 2 then .ok (addWarn ps .ignoredGlobalLine)
  else
    let k := pyStrip (pyUpper raw.headI)
    let v := pyStrip raw.getLastI
    if k == "GLOBAL-SHIFT" then
      match pyFloat v with
      | some g => .ok {ps with global_shift := g}
      | none => .error (.valueError "could not convert string to float")
    else if k == "WIDTH" then
      match pyInt v with
      | some n => .ok {ps with width := n}
      | none => .ok (addWarn ps .badWidth)
    else if k == "HEIGHT" then
      match pyInt v with
      | some n => .ok {ps with height := n}
      | none => .ok (addWarn ps .badHeight)
    else if k == "OUTPUT-FILE" || k == "OUTPUT" then
      if strEndsWith v ".pdf" then .ok {ps with outName := some v}
      else .ok {addWarn ps .outputSuffixAdded with outName := some (v ++ ".pdf")}
    else if k == "ENERGY-UNITS" || k == "ENERGYUNITS" || k == "ENERGY UNITS" then
      .ok {ps with energyUnits := v}
    else if k == "FONT-SIZE" || k == "FONTSIZE" || k == "FONT SIZE" then
      match pyInt v with
      | some n => .ok {ps with fontSize := n}
      | none => .ok (addWarn ps .badFontSize)
    else if containsSub "ENERGY".data k.data && containsSub "RANGE".data k.data then
      match allFloats (pySplit v ',') with
      | some qs =>
        if qs.length = 2 then .ok {ps with y_lims := some qs}
        else .error (.assertionError "Must have two comma separated numbers for range.")
      | none => .ok (addWarn ps .badEnergyRange)
    else .ok (addWarn ps .unknownGlobal)

/-- One iteration of `ReadInput`'s `for line in inp` loop. -/
def processLine (env : String → Option (ℕ × ℕ)) (ps : ParserState) (line : String) :
    Except PErr ParserState :=
  let t := pyStrip line
  if t.data.isEmpty then .ok ps
  else if t.data.headI == '#' then .ok ps
  else
    match ps.stateBlock with
    | true =>
      if t.data.headI == '\x7b' then
        .error (.valueError "ERROR: Unexpected opening brace")
      else if t.data.headI == '\x7d' then .ok {ps with stateBlock := false}
      else processBlockLine env ps t
    | false =>
      if t.data.headI == '\x7b' then
        .ok {ps with statesList := ps.statesList ++ [{}], stateBlock := true}
      else if t.data.headI == '\x7d' then .ok (addWarn ps .unexpectedClose)
      else processGlobalLine ps t

/-- The whole line loop. -/
def processLines (env : String → Option (ℕ × ℕ)) (ps : ParserState) :
    List String → Except PErr ParserState
  | [] => .ok ps
  | l :: rest =>
    match processLine env ps l with
    | .ok ps' => processLines env ps' rest
    | .error e => .error e

/-- Python `sorted` on a list of rationals (insertion sort). -/
def insertSorted (x : ℚ) : List ℚ → List ℚ
  | [] => [x]
  | y :: rest => if x ≤ y then x :: y :: rest else y :: insertSorted x rest

def pySorted : List ℚ → List ℚ
  | [] => []
  | x :: rest => insertSorted x (pySorted rest)

/-- `Diagram`: the global values plus the name-keyed state registry
(an association list, preserving dict insertion order). -/
structure Diagram where
  width : ℤ
  height : ℤ
  y_lims : Option (List ℚ)
  sorted_y_lims : Option (List ℚ)
  outputName : String
  statesList : List (String × State)
  dashes : List ℚ := [6, 3]
  columns : ℤ := 0
  energyUnits : String := ""
  do_legend : Bool := false
  deriving Repr, DecidableEq

/-- `Diagram.__init__` (the `fontSize` argument is accepted and, as in the
source, not stored). -/
def Diagram.init (width height _fontSize : ℤ) (outputName : String)
    (y_lims : Option (List ℚ)) : Diagram :=
  { width := width, height := height, y_lims := y_lims,
    sorted_y_lims := y_lims.map pySorted,
    outputName := outputName, statesList := [] }

/-- `Diagram.AddState`: normalize name and link targets to uppercase, then
register under the name, fatally rejecting duplicates. -/
def Diagram.AddState (d : Diagram) (s : State) : Except PErr Diagram :=
  let s := {s with name := pyUpper s.name, linksTo := pyUpper s.linksTo}
  let d := if s.legend.isSome then {d with do_legend := true} else d
  if (d.statesList.lookup s.name).isNone then
    .ok {d with statesList := d.statesList ++ [(s.name, s)]}
  else .error (.valueError "Non unique state names.")

/-- `ReadInput` after the line loop: mandatory-setting checks, then Diagram
construction with the global shift applied to each state exactly once. -/
def buildDiagram (ps0 : ParserState) : Except PErr Diagram :=
  let ps := if ps0.stateBlock then addWarn ps0 .missingFinalClose else ps0
  if ps.height = 0 then .error (.valueError "Height not set")
  else if ps.width = 0 then .error (.valueError "Width not set")
  else
    match ps.outName with
    | none => .error .unboundLocalError
    | some outName =>
      if outName == "" then .error (.valueError "Output name not set")
      else
        let d0 := Diagram.init ps.width ps.height ps.fontSize outName ps.y_lims
        let d0 := {d0 with energyUnits := ps.energyUnits}
        match (ps.statesList.foldlM
          (fun (acc : Diagram × ℤ) s =>
            let s := {s with rawEnergy := s.rawEnergy - ps.global_shift}
            (acc.1.AddState s).map
              (fun d => (d, if s.column > acc.2 then s.column else acc.2)))
          (d0, 0)) with
        | .ok (d, maxColumn) => .ok {d with columns := maxColumn + 1}
        | .error e => .error e

/-- The whole of `ReadInput` on a list of input lines. -/
def ReadInput (env : String → Option (ℕ × ℕ)) (ls : List String) : Except PErr Diagram :=
  match processLines env {} ls with
  | .ok ps => buildDiagram ps
  | .error e => .error e

/-- `Diagram.MakeLeftRightPoints`: the layout engine's column/energy to
coordinate mapping, with unit column width. -/
def Diagram.MakeLeftRightPoints (d : Diagram) : Diagram :=
  let columnWidth : ℚ := 1
  {d with statesList := d.statesList.map (fun p =>
    let s := p.2
    let lx := (s.column : ℚ) * columnWidth + (s.column : ℚ) * columnWidth / 2
    (p.1, {s with
      leftPointx := lx,
      leftPointy := s.energy,
      rightPointx := lx + columnWidth,
      rightPointy := s.energy}))}

/-- A line segment handed to the canvas (`ax.plot` call). -/
structure Segment where
  x1 : ℚ
  y1 : ℚ
  x2 : ℚ
  y2 : ℚ
  c : String
  lw : ℚ
  ls : String
  legend : Option String := none
  deriving Repr, DecidableEq, Inhabited

/-- The text of an annotation: a state label, or the numeric energy that the
canvas glue formats as `"  {energy:6.3f}"`. -/
inductive AnnotText where
  | label (s : String)
  | energyVal (q : ℚ)
  deriving Repr, DecidableEq, Inhabited

/-- A text annotation handed to the canvas (`ax.annotate` call). -/
structure Annot where
  text : AnnotText
  x : ℚ
  y : ℚ
  color : String
  valign : String
  deriving Repr, DecidableEq, Inhabited

/-- The solid segments `Draw` emits, one per state, in registry order. -/
def Diagram.stateSegments (d : Diagram) : List Segment :=
  d.statesList.map fun p =>
    let s := p.2
    { x1 := s.leftPointx, y1 := s.leftPointy, x2 := s.rightPointx, y2 := s.rightPointy,
      c := s.color, lw := 3, ls := "-", legend := s.legend }

/-- `sorted_y_lims[0] <= y <= sorted_y_lims[1]` (or no limits configured).
When limits exist they are a two-element list, enforced by the parse-time
assertion. -/
def Diagram.inYBounds (d : Diagram) (y : ℚ) : Bool :=
  match d.sorted_y_lims with
  | none => true
  | some l => decide (l.headI ≤ y ∧ y ≤ l.getLastI)

/-- The label and energy annotations `Draw` emits. `ylim` is the canvas's
current visible y-range (matplotlib's autoscaled `ax.get_ylim()`), an input
from the external plotting collaborator. -/
def Diagram.annots (d : Diagram) (ylim : ℚ × ℚ) : List Annot :=
  let offset := ylim.2 * (1/100 : ℚ)
  d.statesList.flatMap fun p =>
    let s := p.2
    let yl := s.leftPointy + s.labelOffset.2 + offset
    let a1 : List Annot :=
      if d.inYBounds yl then
        [{ text := .label s.label, x := s.leftPointx + s.labelOffset.1, y := yl,
           color := s.labelColor, valign := "bottom" }]
      else []
    let ye := s.leftPointy + s.textOffset.2 - offset
    let a2 : List Annot :=
      if s.show_energy && d.inYBounds ye then
        [{ text := .energyVal s.energy, x := s.leftPointx + s.textOffset.1, y := ye,
           color := s.labelColor, valign := "top" }]
      else []
    a1 ++ a2

/-- One `target[:color]` token of a `linksTo` list: the dashed connector it
produces (empty when the target is unknown) and the warning it prints. -/
def linkOneToken (d : Diagram) (s : State) (tok : String) : List Segment × List String :=
  let link := pyStrip tok
  let raw := pySplit link ':'
  let dest := raw.headI
  let color := match raw.get? 1 with
    | some c => c
    | none => "BLACK"
  match d.statesList.lookup dest with
  | some t =>
    ([{ x1 := s.rightPointx, y1 := s.rightPointy, x2 := t.leftPointx, y2 := t.leftPointy,
        c := color, lw := 1, ls := "--" }], [])
  | none => ([], ["Name: " ++ dest ++ " is unknown."])

/-- The dashed connector segments `Draw` emits, with the warnings printed for
unknown targets, in declaration order. -/
def Diagram.linkSegments (d : Diagram) : List Segment × List String :=
  d.statesList.foldl (fun acc p =>
    let s := p.2
    if s.linksTo == "" then acc
    else (pySplit s.linksTo ',').foldl (fun acc tok =>
      let r := linkOneToken d s tok
      (acc.1 ++ r.1, acc.2 ++ r.2)) acc) ([], [])

/-- An image draw call: the raster's shape, its data-space extent box
(after offsets), and the aspect argument. -/
structure ImagePlacement where
  shape : ℕ × ℕ
  left : ℚ
  right : ℚ
  bottom : ℚ
  top : ℚ
  aspect : ℚ
  deriving Repr, DecidableEq

/-- The image placements `Draw` computes.  `xlim`/`ylim` are the canvas's
current visible ranges.  Note the source computes
`y_range = ylim[1] - xlim[0]`, mixing the y upper limit with the x lower
limit.  Division is `ℚ` division (total); the claims are evaluated on
nonzero ranges. -/
def Diagram.imagePlacements (d : Diagram) (xlim ylim : ℚ × ℚ) : List ImagePlacement :=
  let x_range := xlim.2 - xlim.1
  let y_range := ylim.2 - xlim.1
  d.statesList.flatMap fun p =>
    let s := p.2
    match s.image with
    | none => []
    | some shp =>
      let aspect_ratio := (shp.2 : ℚ) / (shp.1 : ℚ)
      let axes_left := (s.leftPointx - xlim.1) / x_range
      let axes_right := (s.rightPointx - xlim.1) / x_range
      let axes_width := axes_right - axes_left
      let axes_bottom := (s.leftPointy - ylim.1) / y_range
      let axes_height := axes_width / aspect_ratio
      let axes_top := axes_bottom + axes_height
      let data_left := s.leftPointx
      let data_right := s.rightPointx * s.imageScale
      let data_bottom := s.leftPointy
      let data_top := (ylim.1 + axes_top * y_range) * s.imageScale
      [{ shape := shp,
         left := data_left + s.imageOffset.1, right := data_right + s.imageOffset.1,
         bottom := data_bottom + s.imageOffset.2, top := data_top + s.imageOffset.2,
         aspect := aspect_ratio }]

/-- Modelled from the spec (for comparison with `Diagram.imagePlacements`):
the image box claim C3 describes, with the axes-fractional height obtained
from the y-range `y1 - y0` of the visible y-interval, and offset applied
additively.  Returns the resulting top edge of the box. -/
def specImageTop (s : State) (xlim ylim : ℚ × ℚ) : ℚ :=
  let x_range := xlim.2 - xlim.1
  let y_range := ylim.2 - ylim.1
  let aspect_ratio := match s.image with
    | some shp => (shp.2 : ℚ) / (shp.1 : ℚ)
    | none => 1
  let axes_left := (s.leftPointx - xlim.1) / x_range
  let axes_right := (s.rightPointx - xlim.1) / x_range
  let axes_bottom := (s.leftPointy - ylim.1) / y_range
  let axes_top := axes_bottom + (axes_right - axes_left) / aspect_ratio
  (ylim.1 + axes_top * y_range) * s.imageScale + s.imageOffset.2

/-- The connector segments one state's `linksTo` list yields (token by token,
unknown targets contributing nothing). -/
def stateLinkSegs (d : Diagram) (s : State) : List Segment :=
  if s.linksTo == "" then []
  else (pySplit s.linksTo ',').flatMap (fun tok => (linkOneToken d s tok).1)

/-- The unknown-target warnings one state's `linksTo` list yields. -/
def stateLinkWarns (d : Diagram) (s : State) : List String :=
  if s.linksTo == "" then []
  else (pySplit s.linksTo ',').flatMap (fun tok => (linkOneToken d s tok).2)

/-- `{ps with global_shift := g}`, as a function (the parser loop never reads
`global_shift`; it is only consumed after the loop). -/
def setShift (ps : ParserState) (g : ℚ) : ParserState := {ps with global_shift := g}

/-- Whether a line would be parsed as a `GLOBAL-SHIFT` assignment when read in
the global region: exactly two `=`-fields and first field `GLOBAL-SHIFT`
after upper-casing and stripping. -/
def isShiftText (l : String) : Bool :=
  let raw := pySplit (pyStrip l) '='
  raw.length == 2 && (pyStrip (pyUpper (pySplit (pyStrip l) '=').headI) == "GLOBAL-SHIFT")

/-- Whether a line's first `=`-field classifies as the `COLUMN` key (the
only key that can change a state's column). -/
def isColumnText (l : String) : Bool :=
  classifyKey (pyStrip (pyUpper (pySplit (pyStrip l) '=').headI)) == BlockKey.columnK

/-- Filesystem model with no readable images. -/
def noImg : String → Option (ℕ × ℕ) := fun _ => none

/-- Filesystem model holding one 1-row, 2-column raster under `img.png`. -/
def oneImg : String → Option (ℕ × ℕ) := fun p =>
  if p == "img.png" then some (1, 2) else none

/-- The empty diagram used as the fallback of the concrete-run definitions
below (the theorems prove the fallback is never taken). -/
def emptyDiagram : Diagram := Diagram.init 0 0 0 "" none

/-- The spec's end-to-end three-state chain example. -/
def chainInput : List String :=
  ["width = 8", "height = 8", "output = test",
   "\x7b", "name = a", "energy = 0.0", "column = 1", "\x7d",
   "\x7b", "name = b", "energy = -5", "column = 2", "linksto = c", "\x7d",
   "\x7b", "name = c", "energy = -2", "column = 3", "\x7d"]

/-- The chain example's parsed diagram. -/
def chainDiagramPre : Diagram :=
  match ReadInput noImg chainInput with
  | .ok d => d
  | .error _ => emptyDiagram

/-- The chain example's diagram after layout. -/
def chainDiagram : Diagram := chainDiagramPre.MakeLeftRightPoints

/-- The registered `C` state of the chain example (fallback `default`;
the witness evaluations show the fallback is not taken). -/
def cState : State :=
  match chainDiagram.statesList.lookup "C" with
  | some t => t
  | none => default

/-- A state block with no `COLUMN` line. -/
def noColInput : List String :=
  ["width = 8", "height = 8", "output = t.pdf",
   "\x7b", "name = a", "energy = 0", "\x7d"]

/-- The parser state after the no-column example (fallback default). -/
def noColPS : ParserState :=
  match processLines noImg {} noColInput with
  | .ok ps => ps
  | .error _ => {}

/-- The no-column example's parsed diagram. -/
def noColPre : Diagram :=
  match ReadInput noImg noColInput with
  | .ok d => d
  | .error _ => emptyDiagram

/-- The no-column example's diagram after layout. -/
def noColDiagram : Diagram := noColPre.MakeLeftRightPoints

/-- Two blocks: one without a `COLUMN` line, one declaring column 3. -/
def twoColInput : List String :=
  ["width = 8", "height = 8", "output = t.pdf",
   "\x7b", "name = a", "energy = 0", "\x7d",
   "\x7b", "name = b", "energy = 1", "column = 3", "\x7d"]

/-- The two-block example's parsed diagram. -/
def twoColPre : Diagram :=
  match ReadInput noImg twoColInput with
  | .ok d => d
  | .error _ => emptyDiagram

/-- The two-block example's diagram after layout. -/
def twoColDiagram : Diagram := twoColPre.MakeLeftRightPoints

/-- A complete input without any `global-shift` line. -/
def shiftDemoLines : List String :=
  ["width = 8", "height = 8", "output = t.pdf", "\x7b", "name = a", "energy = 1", "\x7d"]

/-- The parser state after the shift-demo lines (fallback default). -/
def shiftDemoPS : ParserState :=
  match processLines noImg {} shiftDemoLines with
  | .ok ps => ps
  | .error _ => {}

/-- An input with `y-limits = [-1, 1]` and two labelled states, one whose
label lands inside the limits and one outside. -/
def labelInput : List String :=
  ["width = 8", "height = 8", "output = t.pdf", "energy range = -1, 1",
   "\x7b", "name = a", "label = LA", "energy = 0", "\x7d",
   "\x7b", "name = b", "label = LB", "energy = 5", "\x7d"]

/-- The label example's parsed diagram. -/
def labelDiagramPre : Diagram :=
  match ReadInput noImg labelInput with
  | .ok d => d
  | .error _ => emptyDiagram

/-- The label example's diagram after layout. -/
def labelDiagram : Diagram := labelDiagramPre.MakeLeftRightPoints

/-- An input exercising every color channel: state color, label color, and a
lower-case per-link color. -/
def colorInput : List String :=
  ["width = 8", "height = 8", "output = t.pdf",
   "\x7b", "name = a", "text-colour = Dark Red", "labelColour = bAz",
   "linksto = b:red", "energy = 0", "column = 1", "\x7d",
   "\x7b", "name = b", "energy = 1", "column = 2", "\x7d"]

/-- The color example's parsed diagram. -/
def colorDiagramPre : Diagram :=
  match ReadInput noImg colorInput with
  | .ok d => d
  | .error _ => emptyDiagram

/-- The color example's diagram after layout. -/
def colorDiagram : Diagram := colorDiagramPre.MakeLeftRightPoints

/-- An input with one state carrying the `oneImg` raster. -/
def imageInput : List String :=
  ["width = 8", "height = 8", "output = t.pdf",
   "\x7b", "name = a", "energy = 0", "column = 1", "image = img.png", "\x7d"]

/-- The image example's parsed diagram. -/
def imageDiagramPre : Diagram :=
  match ReadInput oneImg imageInput with
  | .ok d => d
  | .error _ => emptyDiagram

/-- The image example's diagram after layout. -/
def imageDiagram : Diagram := imageDiagramPre.MakeLeftRightPoints

/-- The diagram obtained by registering a state named `foo` into a fresh
8-by-8 diagram. -/
def fooDiagram : Diagram :=
  match (Diagram.init 8 8 8 "t.pdf" none).AddState {name := "foo"} with
  | .ok d => d
  | .error _ => emptyDiagram

/-!  Supporting lemmas.  -/

/-- A lookup in an association list that ends with the sought key succeeds. -/
theorem lookup_append_isSome (l : List (String × State)) (k : String) (v : State) :
    ((l ++ [(k, v)]).lookup k).isSome = true := by
  induction l with
  | nil => simp [List.lookup]
  | cons p rest ih =>
    obtain ⟨k', v'⟩ := p
    by_cases h : k == k'
    · simp [List.lookup, h]
    · simp only [List.cons_append, List.lookup, h]
      exact ih

/-- What a successful `AddState` does: the uniqueness check passed on the
upper-cased name, and the normalized state was appended to the registry. -/
theorem AddState_ok (d d' : Diagram) (s : State) (h : d.AddState s = .ok d') :
    (d.statesList.lookup (pyUpper s.name)).isNone = true ∧
    d'.statesList = d.statesList ++
      [(pyUpper s.name, {s with name := pyUpper s.name, linksTo := pyUpper s.linksTo})] := by
  unfold Diagram.AddState at h
  dsimp only at h
  cases hleg : s.legend <;> simp only [hleg] at h <;> simp at h <;> split at h <;>
    simp_all <;> exact ⟨by assumption, by rw [← h]⟩

theorem mem_annots (d : Diagram) (ylim : ℚ × ℚ) (a : Annot) (h : a ∈ d.annots ylim) :
    ∃ p ∈ d.statesList,
      (a = { text := .label p.2.label, x := p.2.leftPointx + p.2.labelOffset.1,
             y := p.2.leftPointy + p.2.labelOffset.2 + ylim.2 * (1/100),
             color := p.2.labelColor, valign := "bottom" } ∧
        d.inYBounds a.y = true) ∨
      (a = { text := .energyVal p.2.energy, x := p.2.leftPointx + p.2.textOffset.1,
             y := p.2.leftPointy + p.2.textOffset.2 - ylim.2 * (1/100),
             color := p.2.labelColor, valign := "top" } ∧
        p.2.show_energy = true ∧ d.inYBounds a.y = true) := by
  unfold Diagram.annots at h
  simp only [List.mem_flatMap] at h
  obtain ⟨p, hp, ha⟩ := h
  refine ⟨p, hp, ?_⟩
  rcases List.mem_append.1 ha with h1 | h1
  · by_cases hb : d.inYBounds
        (p.2.leftPointy + p.2.labelOffset.2 + ylim.2 * (1/100)) = true
    · simp only [hb, if_true, List.mem_singleton] at h1
      subst h1
      exact Or.inl ⟨rfl, hb⟩
    · simp only [Bool.not_eq_true] at hb
      rw [hb] at h1
      simp at h1
  · by_cases hs : p.2.show_energy = true
    · by_cases hb : d.inYBounds
          (p.2.leftPointy + p.2.textOffset.2 - ylim.2 * (1/100)) = true
      · simp only [hs, hb, Bool.and_self, if_true, List.mem_singleton] at h1
        subst h1
        exact Or.inr ⟨rfl, hs, hb⟩
      · simp only [Bool.not_eq_true] at hb
        rw [hb] at h1
        simp at h1
    · simp only [Bool.not_eq_true] at hs
      rw [hs] at h1
      simp at h1

theorem label_annot_mem (d : Diagram) (ylim : ℚ × ℚ) (p : String × State)
    (hp : p ∈ d.statesList)
    (hb : d.inYBounds (p.2.leftPointy + p.2.labelOffset.2 + ylim.2 * (1/100)) = true) :
    ({ text := .label p.2.label, x := p.2.leftPointx + p.2.labelOffset.1,
       y := p.2.leftPointy + p.2.labelOffset.2 + ylim.2 * (1/100),
       color := p.2.labelColor, valign := "bottom" } : Annot) ∈ d.annots ylim := by
  unfold Diagram.annots
  simp only [List.mem_flatMap]
  refine ⟨p, hp, ?_⟩
  rw [hb]
  simp

/-- Folding a pair-accumulating step over a list appends each element's
contributions in order. -/
theorem foldl_pair_append {α β γ : Type} (f : α → List β × List γ) :
    ∀ (l : List α) (acc : List β × List γ),
      l.foldl (fun acc x => (acc.1 ++ (f x).1, acc.2 ++ (f x).2)) acc =
        (acc.1 ++ l.flatMap (fun x => (f x).1), acc.2 ++ l.flatMap (fun x => (f x).2)) := by
  intro l
  induction l with
  | nil => intro acc; simp
  | cons x rest ih =>
    intro acc
    rw [List.foldl_cons, ih]
    simp [List.append_assoc]

/-- `Draw`'s link loop concatenates, state by state and token by token, the
segments and warnings of each `linksTo` token: one token's outcome never
stops the processing of later tokens or states. -/
theorem linkSegments_eq_flatMap (d : Diagram) :
    d.linkSegments =
      (d.statesList.flatMap (fun p => stateLinkSegs d p.2),
       d.statesList.flatMap (fun p => stateLinkWarns d p.2)) := by
  unfold Diagram.linkSegments
  have hfun : (fun (acc : List Segment × List String) (p : String × State) =>
        if p.2.linksTo == "" then acc
        else (pySplit p.2.linksTo ',').foldl (fun acc tok =>
          let r := linkOneToken d p.2 tok
          (acc.1 ++ r.1, acc.2 ++ r.2)) acc) =
      (fun acc p => (acc.1 ++ stateLinkSegs d p.2, acc.2 ++ stateLinkWarns d p.2)) := by
    funext acc p
    by_cases hl : (p.2.linksTo == "") = true
    · simp [hl, stateLinkSegs, stateLinkWarns]
    · simp only [Bool.not_eq_true] at hl
      simp only [hl, Bool.false_eq_true, if_false, stateLinkSegs, stateLinkWarns]
      exact foldl_pair_append (linkOneToken d p.2) _ _
  rw [hfun]
  have h2 := foldl_pair_append
      (fun p : String × State => (stateLinkSegs d p.2, stateLinkWarns d p.2))
      d.statesList ([], [])
  simpa using h2

/-- `modifyLast` with a column-preserving update preserves the column map. -/
theorem modifyLast_column_map (f : State → State) (hf : ∀ s, (f s).column = s.column) :
    ∀ l : List State, (modifyLast f l).map (fun s => s.column) = l.map (fun s => s.column)
  | [] => rfl
  | [s] => by simp [modifyLast, hf]
  | s :: b :: bs => by
    have := modifyLast_column_map f hf (b :: bs)
    simp only [modifyLast, List.map_cons] at this ⊢
    rw [this]

/-- The image-scale update never changes a column. -/
theorem applyImageScale_column_map (ps : ParserState) (sc : ℚ) :
    (applyImageScale ps sc).statesList.map (fun s => s.column) =
      ps.statesList.map (fun s => s.column) := by
  by_cases hs : sc < (1 : ℚ)/10 <;>
    simp only [applyImageScale, hs, if_true, if_false] <;>
    (apply modifyLast_column_map; intro s; rfl)

set_option maxHeartbeats 1000000 in
/-- Any successful block assignment other than `COLUMN` preserves every
state's column. -/
theorem blockAssign_column_map (env : String → Option (ℕ × ℕ)) (ps : ParserState)
    (k : String) (v? : Option String) (lastTok : String) (labelTail : List String)
    (ps' : ParserState) (hcol : classifyKey k ≠ .columnK)
    (h : blockAssign env ps k v? lastTok labelTail = .ok ps') :
    ps'.statesList.map (fun s => s.column) = ps.statesList.map (fun s => s.column) := by
  unfold blockAssign at h
  cases hk : classifyKey k <;> rw [hk] at h <;> dsimp only at h <;> repeat' split at h
  all_goals
    first
      | exact absurd hk hcol
      | exact Except.noConfusion h
      | (simp only [Except.ok.injEq] at h; subst h;
         apply modifyLast_column_map; intro s; rfl)
      | (simp only [Except.ok.injEq] at h; subst h;
         exact applyImageScale_column_map ps _)
      | (simp only [Except.ok.injEq] at h; subst h; rfl)

/-- A successful global-option line never touches the working state list. -/
theorem processGlobalLine_ok_statesList (ps : ParserState) (t : String) (ps' : ParserState)
    (h : processGlobalLine ps t = .ok ps') : ps'.statesList = ps.statesList := by
  simp only [processGlobalLine] at h
  split_ifs at h <;> repeat' split at h
  all_goals
    first
      | exact Except.noConfusion h
      | (simp only [Except.ok.injEq] at h; subst h; rfl)

/-- A successful block line whose key is not `COLUMN` preserves every
state's column. -/
theorem processBlockLine_column_map (env : String → Option (ℕ × ℕ)) (ps : ParserState)
    (t : String) (ps' : ParserState)
    (hcol : classifyKey (pyStrip (pyUpper (pySplit t '=').headI)) ≠ .columnK)
    (h : processBlockLine env ps t = .ok ps') :
    ps'.statesList.map (fun s => s.column) = ps.statesList.map (fun s => s.column) :=
  blockAssign_column_map env ps _ _ _ _ ps' hcol h

set_option maxHeartbeats 1000000 in
/-- A successful line that is not a `COLUMN` assignment either preserves the
column map or appends a fresh default state, whose column is 1. -/
theorem processLine_column_map (env : String → Option (ℕ × ℕ)) (ps : ParserState)
    (l : String) (ps' : ParserState)
    (hcol : isColumnText l = false)
    (h : processLine env ps l = .ok ps') :
    ps'.statesList.map (fun s => s.column) = ps.statesList.map (fun s => s.column) ∨
    ps'.statesList.map (fun s => s.column) =
      ps.statesList.map (fun s => s.column) ++ [1] := by
  have hc : classifyKey (pyStrip (pyUpper (pySplit (pyStrip l) '=').headI)) ≠ .columnK := by
    simpa [isColumnText] using hcol
  simp only [processLine] at h
  repeat' split at h
  all_goals
    first
      | (left; exact processBlockLine_column_map env ps _ ps' hc h)
      | (left; rw [processGlobalLine_ok_statesList ps _ ps' h])
      | exact Except.noConfusion h
      | (simp only [Except.ok.injEq] at h; subst h; left; rfl)
      | (simp only [Except.ok.injEq] at h; subst h; right; simp [modifyLast])

/-- Transfer all-columns-one through the per-line column-map evolution. -/
theorem column_all_one_transfer {l l' : List State}
    (hm : l'.map (fun s => s.column) = l.map (fun s => s.column) ∨
      l'.map (fun s => s.column) = l.map (fun s => s.column) ++ [(1 : ℤ)])
    (h1 : ∀ s ∈ l, s.column = 1) : ∀ s ∈ l', s.column = 1 := by
  intro s hs
  have hmem : s.column ∈ l'.map (fun s => s.column) := List.mem_map_of_mem _ hs
  rcases hm with hm | hm <;> rw [hm] at hmem
  · obtain ⟨t, ht, he⟩ := List.mem_map.1 hmem
    rw [← he]; exact h1 t ht
  · rcases List.mem_append.1 hmem with hx | hx
    · obtain ⟨t, ht, he⟩ := List.mem_map.1 hx
      rw [← he]; exact h1 t ht
    · simpa using hx

/-- Over any run of lines free of `COLUMN` assignments, every state's column
stays 1. -/
theorem processLines_columns_one (env : String → Option (ℕ × ℕ)) :
    ∀ (ls : List String) (ps ps' : ParserState),
    (∀ l ∈ ls, isColumnText l = false) →
    (∀ s ∈ ps.statesList, s.column = 1) →
    processLines env ps ls = .ok ps' →
    ∀ s ∈ ps'.statesList, s.column = 1 := by
  intro ls
  induction ls with
  | nil =>
    intro ps ps' _ h1 h
    simp only [processLines, Except.ok.injEq] at h
    subst h
    exact h1
  | cons l rest ih =>
    intro ps ps' hc h1 h
    simp only [processLines] at h
    cases hpl : processLine env ps l with
    | error e => rw [hpl] at h; exact Except.noConfusion h
    | ok ps1 =>
      rw [hpl] at h
      have hm := processLine_column_map env ps l ps1 (hc l (by simp)) hpl
      exact ih ps1 ps' (fun x hx => hc x (by simp [hx])) (column_all_one_transfer hm h1) h

/-- The image-scale update commutes with overriding the global shift. -/
theorem applyImageScale_setShift (ps : ParserState) (g sc : ℚ) :
    applyImageScale (setShift ps g) sc = setShift (applyImageScale ps sc) g := by
  simp only [applyImageScale, setShift, addWarn]
  split_ifs <;> rfl

/-- Block assignments never read the global shift: running one from a state
with overridden shift equals running it and then overriding. -/
theorem blockAssign_setShift (env : String → Option (ℕ × ℕ)) (ps : ParserState)
    (k : String) (v? : Option String) (lastTok : String) (labelTail : List String)
    (g : ℚ) :
    blockAssign env (setShift ps g) k v? lastTok labelTail =
      (blockAssign env ps k v? lastTok labelTail).map (setShift · g) := by
  unfold blockAssign
  cases hk : classifyKey k <;> dsimp only <;> repeat' split
  all_goals first
    | rfl
    | (rw [applyImageScale_setShift]; rfl)

/-- A global-option line other than a well-formed `GLOBAL-SHIFT` assignment
never reads the global shift. -/
theorem processGlobalLine_setShift (ps : ParserState) (t : String) (g : ℚ)
    (hns : (pySplit t '=').length ≠ 2 ∨
      (pyStrip (pyUpper (pySplit t '=').headI) == "GLOBAL-SHIFT") = false) :
    processGlobalLine (setShift ps g) t = (processGlobalLine ps t).map (setShift · g) := by
  by_cases h2 : (pySplit t '=').length ≠ 2
  · simp only [processGlobalLine]
    rw [if_pos h2, if_pos h2]
    rfl
  · rcases hns with hns | hns
    · exact absurd hns h2
    · simp only [processGlobalLine]
      rw [if_neg h2, if_neg h2, hns]
      simp only [Bool.false_eq_true, if_false]
      repeat' split
      all_goals rfl

/-- Block lines never read the global shift. -/
theorem processBlockLine_setShift (env : String → Option (ℕ × ℕ)) (ps : ParserState)
    (t : String) (g : ℚ) :
    processBlockLine env (setShift ps g) t = (processBlockLine env ps t).map (setShift · g) :=
  blockAssign_setShift env ps _ _ _ _ g

/-- Overriding the shift leaves the block flag unchanged. -/
theorem setShift_stateBlock (ps : ParserState) (g : ℚ) :
    (setShift ps g).stateBlock = ps.stateBlock := rfl

/-- Any line that is not a `GLOBAL-SHIFT` assignment commutes with
overriding the global shift. -/
theorem processLine_setShift (env : String → Option (ℕ × ℕ)) (ps : ParserState)
    (l : String) (g : ℚ) (hs : isShiftText l = false) :
    processLine env (setShift ps g) l = (processLine env ps l).map (setShift · g) := by
  have hns : (pySplit (pyStrip l) '=').length ≠ 2 ∨
      (pyStrip (pyUpper (pySplit (pyStrip l) '=').headI) == "GLOBAL-SHIFT") = false := by
    unfold isShiftText at hs
    rcases Bool.and_eq_false_iff.1 hs with hx | hx
    · left; simpa using hx
    · right; exact hx
  simp only [processLine, setShift_stateBlock]
  cases hb : ps.stateBlock <;>
    repeat' split
  all_goals
    first
      | rfl
      | exact processBlockLine_setShift env ps _ g
      | exact processGlobalLine_setShift ps _ g hns

/-- A run of shift-free lines commutes with overriding the global shift. -/
theorem processLines_setShift (env : String → Option (ℕ × ℕ)) :
    ∀ (ls : List String) (ps : ParserState) (g : ℚ),
    (∀ l ∈ ls, isShiftText l = false) →
    processLines env (setShift ps g) ls = (processLines env ps ls).map (setShift · g) := by
  intro ls
  induction ls with
  | nil => intro ps g _; rfl
  | cons l rest ih =>
    intro ps g hns
    simp only [processLines]
    rw [processLine_setShift env ps l g (hns l (by simp))]
    cases hpl : processLine env ps l with
    | error e => rfl
    | ok ps1 => exact ih ps1 g (fun x hx => hns x (by simp [hx]))

/-- The line loop processes an appended suffix from the prefix's state. -/
theorem processLines_append (env : String → Option (ℕ × ℕ)) (l1 l2 : List String) :
    ∀ ps, processLines env ps (l1 ++ l2) =
      match processLines env ps l1 with
      | .ok ps' => processLines env ps' l2
      | .error e => .error e := by
  induction l1 with
  | nil => intro ps; rfl
  | cons x rest ih =>
    intro ps
    simp only [List.cons_append, processLines]
    cases hx : processLine env ps x with
    | error e => rfl
    | ok ps1 => exact ih ps1

/-!  Claim theorems.  -/

/-- C1: the layout engine assigns every state `leftPoint = (c·1 + c·1/2, e)`
and `rightPoint = (leftPoint.x + 1, e)` for its internal column index `c` and
effective energy `e`; and the three-state chain `A (col 1, en 0)`,
`B (col 2, en -5)`, `C (col 3, en -2)` parses to internal columns `0,1,2`
with points `A:(0,0)-(1,0)`, `B:(1.5,-5)-(2.5,-5)`, `C:(3,-2)-(4,-2)`. -/
theorem C1_layout_points :
    (∀ (d : Diagram) (p : String × State), p ∈ (d.MakeLeftRightPoints).statesList →
      p.2.leftPointx = (p.2.column : ℚ) * 1 + (p.2.column : ℚ) * 1 / 2 ∧
      p.2.leftPointy = p.2.energy ∧
      p.2.rightPointx = p.2.leftPointx + 1 ∧
      p.2.rightPointy = p.2.energy) ∧
    ReadInput noImg chainInput = .ok chainDiagramPre ∧
    chainDiagram.statesList.map
        (fun p => (p.1, p.2.column, p.2.leftPointx, p.2.leftPointy,
          p.2.rightPointx, p.2.rightPointy)) =
      [("A", 0, 0, 0, 1, 0), ("B", 1, 3/2, -5, 5/2, -5), ("C", 2, 3, -2, 4, -2)] := by
  refine ⟨?_, by with_unfolding_all rfl, by with_unfolding_all rfl⟩
  intro d p hp
  unfold Diagram.MakeLeftRightPoints at hp
  simp only [List.mem_map] at hp
  obtain ⟨q, _, rfl⟩ := hp
  exact ⟨rfl, rfl, rfl, rfl⟩

/-- Witness for C1: the chain's state `A` satisfies the layout equations. -/
theorem C1_layout_points_witness :
    chainDiagram.statesList.headI.2.leftPointx =
      (chainDiagram.statesList.headI.2.column : ℚ) * 1 +
        (chainDiagram.statesList.headI.2.column : ℚ) * 1 / 2 ∧
    chainDiagram.statesList.headI.2.leftPointy = chainDiagram.statesList.headI.2.energy ∧
    chainDiagram.statesList.headI.2.rightPointx =
      chainDiagram.statesList.headI.2.leftPointx + 1 ∧
    chainDiagram.statesList.headI.2.rightPointy = chainDiagram.statesList.headI.2.energy :=
  C1_layout_points.1 chainDiagramPre chainDiagram.statesList.headI
    (by with_unfolding_all decide)

/-- C3 (code-bug evidence): on a state at columns segment `[0,1]`, energy 0,
with a 1-row 2-column image, visible ranges `xlim = (0,10)`, `ylim = (-5,5)`,
the code's image box has top edge `1/4` — computed with
`y_range = ylim[1] - xlim[0]` — while the y-extent the claim describes (using
the y-range `y1 - y0`) puts the top edge at `1/2`. -/
theorem C3_image_y_range_bug :
    imageDiagram.imagePlacements ((0 : ℚ), 10) ((-5 : ℚ), 5) =
      [{ shape := (1, 2), left := 0, right := 1, bottom := 0, top := 1/4, aspect := 2 }] ∧
    imageDiagram.statesList.map (fun p => specImageTop p.2 ((0 : ℚ), 10) ((-5 : ℚ), 5)) =
      [1/2] ∧
    ((1 : ℚ)/4) ≠ 1/2 := by
  refine ⟨by with_unfolding_all rfl, by with_unfolding_all rfl, by norm_num⟩

/-- C4 (counterexample): a malformed number for the numeric field
`global-shift` is not a warning: the unguarded `float` call raises and the
run aborts. -/
theorem C4_cex_global_shift_aborts :
    ReadInput noImg ["width = 8", "height = 8", "output = t.pdf", "global-shift = abc"] =
      .error (.valueError "could not convert string to float") := by
  with_unfolding_all rfl

/-- C4 (amended): for every parser state, a line assigning a malformed number
to any numeric field other than `global-shift` — column, energy, energy
shift, the three offsets and the image scale inside a block; width, height,
font-size and the energy range outside — only records a warning and leaves
every field (in particular the targeted one) at its prior value. -/
theorem C4_malformed_numbers_warn :
    (∀ (env : String → Option (ℕ × ℕ)) (ps : ParserState),
      processLine env {ps with stateBlock := true} "column = abc" =
        .ok (addWarn {ps with stateBlock := true} .badColumn) ∧
      processLine env {ps with stateBlock := true} "energy = abc" =
        .ok (addWarn {ps with stateBlock := true} .badEnergy) ∧
      processLine env {ps with stateBlock := true} "energy shift = abc" =
        .ok (addWarn {ps with stateBlock := true} .badEnergyShift) ∧
      processLine env {ps with stateBlock := true} "labeloffset = abc,1" =
        .ok (addWarn {ps with stateBlock := true} .badLabelOffset) ∧
      processLine env {ps with stateBlock := true} "labeloffset = 1,abc" =
        .ok (addWarn {ps with stateBlock := true} .badLabelOffset) ∧
      processLine env {ps with stateBlock := true} "textoffset = abc,1" =
        .ok (addWarn {ps with stateBlock := true} .badTextOffset) ∧
      processLine env {ps with stateBlock := true} "image offset = abc,1" =
        .ok (addWarn {ps with stateBlock := true} .badImageOffset) ∧
      processLine env {ps with stateBlock := true} "image scale = abc" =
        .ok (addWarn {ps with stateBlock := true} .badImageScale)) ∧
    (∀ (env : String → Option (ℕ × ℕ)) (ps : ParserState),
      processLine env {ps with stateBlock := false} "width = abc" =
        .ok (addWarn {ps with stateBlock := false} .badWidth) ∧
      processLine env {ps with stateBlock := false} "height = abc" =
        .ok (addWarn {ps with stateBlock := false} .badHeight) ∧
      processLine env {ps with stateBlock := false} "font-size = abc" =
        .ok (addWarn {ps with stateBlock := false} .badFontSize) ∧
      processLine env {ps with stateBlock := false} "energy range = abc, 1" =
        .ok (addWarn {ps with stateBlock := false} .badEnergyRange)) := by
  constructor
  · intro env ps
    refine ⟨?_, ?_, ?_, ?_, ?_, ?_, ?_, ?_⟩ <;> with_unfolding_all rfl
  · intro env ps
    refine ⟨?_, ?_, ?_, ?_⟩ <;> with_unfolding_all rfl

/-- C5: registering a state and then another whose name differs only in case
raises the fatal duplicate-name error, because names are normalized to
uppercase before the uniqueness check against the existing registry. -/
theorem C5_duplicate_name (d d' : Diagram) (s t : State)
    (hname : pyUpper t.name = pyUpper s.name)
    (h : d.AddState s = .ok d') :
    d'.AddState t = .error (.valueError "Non unique state names.") := by
  obtain ⟨-, hlist⟩ := AddState_ok d d' s h
  have hsome : ((d'.statesList).lookup (pyUpper t.name)).isSome = true := by
    rw [hname, hlist]; exact lookup_append_isSome _ _ _
  have hnone : ((d'.statesList).lookup (pyUpper t.name)).isNone = false := by
    cases hopt : (d'.statesList).lookup (pyUpper t.name) with
    | none => rw [hopt] at hsome; simp at hsome
    | some u => rfl
  unfold Diagram.AddState
  dsimp only
  cases hleg : t.legend <;> simp [hleg, hnone]

/-- Witness for C5: `foo` then `FOO` triggers the duplicate-name error. -/
theorem C5_duplicate_name_witness :
    (Diagram.init 8 8 8 "t.pdf" none).AddState {name := "foo"} = .ok fooDiagram ∧
    fooDiagram.AddState {name := "FOO"} =
      .error (.valueError "Non unique state names.") := by
  refine ⟨by with_unfolding_all rfl, ?_⟩
  exact C5_duplicate_name (Diagram.init 8 8 8 "t.pdf" none) fooDiagram
    {name := "foo"} {name := "FOO"}
    (by with_unfolding_all rfl) (by with_unfolding_all rfl)

/-- C8 (code-bug evidence): missing `height` and missing `width` abort with
their configured messages, but a run missing only the output target aborts
with an unbound-local error at the `outName == ""` check, not with the
"output file name not set" message; in each case no Diagram is constructed. -/
theorem C8_mandatory_globals :
    ReadInput noImg ["width = 8", "height = 8"] = .error .unboundLocalError ∧
    ReadInput noImg ["width = 8", "output = t.pdf"] = .error (.valueError "Height not set") ∧
    ReadInput noImg ["height = 8", "output = t.pdf"] = .error (.valueError "Width not set") ∧
    PErr.unboundLocalError ≠ .valueError "Output name not set" := by
  refine ⟨by with_unfolding_all rfl, by with_unfolding_all rfl,
    by with_unfolding_all rfl, by decide⟩

/-- C7 (amended): every emitted annotation lies within the sorted y-limits
(out-of-range labels and energy notes are suppressed entirely); each label
annotation is anchored at `leftPoint + labelOffset` with its y nudged upward
by 1% of the upper y-limit `ylim.2` (not 1% of the vertical range); an
in-bounds label is always emitted; and with limits `[-1, 1]` the label
computed at y = 5.01 is absent while the one at y = 0.01 appears. -/
theorem C7_label_geometry :
    (∀ (d : Diagram) (ylim : ℚ × ℚ) (a : Annot), a ∈ d.annots ylim →
      d.inYBounds a.y = true) ∧
    (∀ (d : Diagram) (ylim : ℚ × ℚ) (a : Annot), a ∈ d.annots ylim →
      a.valign = "bottom" →
      ∃ p ∈ d.statesList,
        a.text = .label p.2.label ∧
        a.x = p.2.leftPointx + p.2.labelOffset.1 ∧
        a.y = p.2.leftPointy + p.2.labelOffset.2 + ylim.2 * (1/100)) ∧
    (∀ (d : Diagram) (ylim : ℚ × ℚ) (p : String × State), p ∈ d.statesList →
      d.inYBounds (p.2.leftPointy + p.2.labelOffset.2 + ylim.2 * (1/100)) = true →
      ({ text := .label p.2.label, x := p.2.leftPointx + p.2.labelOffset.1,
         y := p.2.leftPointy + p.2.labelOffset.2 + ylim.2 * (1/100),
         color := p.2.labelColor, valign := "bottom" } : Annot) ∈ d.annots ylim) ∧
    labelDiagram.annots ((-1 : ℚ), 1) =
      [{ text := .label "LA", x := 3/2, y := 1/100, color := "k", valign := "bottom" },
       { text := .energyVal 0, x := 3/2, y := -1/100, color := "k", valign := "top" }] := by
  refine ⟨?_, ?_, fun d ylim p hp hb => label_annot_mem d ylim p hp hb,
    by with_unfolding_all rfl⟩
  · intro d ylim a h
    obtain ⟨p, hp, hc | hc⟩ := mem_annots d ylim a h
    · exact hc.2
    · exact hc.2.2
  · intro d ylim a h hv
    obtain ⟨p, hp, hc | hc⟩ := mem_annots d ylim a h
    · exact ⟨p, hp, by rw [hc.1], by rw [hc.1], by rw [hc.1]⟩
    · exfalso
      rw [hc.1] at hv
      simp at hv

/-- Witness for C7: the in-bounds label of the first state of the label
example is emitted. -/
theorem C7_label_geometry_witness :
    ({ text := .label labelDiagram.statesList.headI.2.label,
       x := labelDiagram.statesList.headI.2.leftPointx +
         labelDiagram.statesList.headI.2.labelOffset.1,
       y := labelDiagram.statesList.headI.2.leftPointy +
         labelDiagram.statesList.headI.2.labelOffset.2 + (1 : ℚ) * (1/100),
       color := labelDiagram.statesList.headI.2.labelColor,
       valign := "bottom" } : Annot) ∈ labelDiagram.annots ((-1 : ℚ), 1) :=
  C7_label_geometry.2.2.1 labelDiagram ((-1 : ℚ), 1) labelDiagram.statesList.headI
    (by with_unfolding_all decide) (by with_unfolding_all rfl)

/-- C7 (counterexample): with visible range `(-1, 1)` the emitted label for a
state at `leftPointy = 0` with zero offset sits at y = 1/100 (1% of the upper
limit), not at y = 2/100 (1% of the visible vertical range of 2) as the claim
states. -/
theorem C7_cex_nudge_is_upper_limit :
    (labelDiagram.annots ((-1 : ℚ), 1)).map (fun a => (a.text, a.y)) =
      [(.label "LA", 1/100), (.energyVal 0, -1/100)] ∧
    labelDiagram.statesList.headI.2.leftPointy = 0 ∧
    labelDiagram.statesList.headI.2.labelOffset = (0, 0) ∧
    (0 : ℚ) + 0 + ((1 : ℚ) - (-1)) * (1/100) = 2/100 ∧
    ((1 : ℚ)/100) ≠ 2/100 := by
  refine ⟨by with_unfolding_all rfl, by with_unfolding_all rfl,
    by with_unfolding_all rfl, by norm_num, by norm_num⟩

/-- C9 (counterexample): the per-link color `red` written in the input
reaches the canvas upper-cased as `RED`, so color strings are not all passed
through verbatim. -/
theorem C9_cex_link_color :
    "linksto = b:red" ∈ colorInput ∧
    colorDiagram.linkSegments.1.map (fun sg => sg.c) = ["RED"] ∧
    ("RED" : String) ≠ "red" := by
  refine ⟨by decide, by with_unfolding_all rfl, by decide⟩

/-- C9 (amended): state colors and label colors reach the canvas calls
verbatim from the `State` record (where the parser stored the input value
unchanged), but the per-link color of each `linksTo` token is the token part
after `:` of the linksTo string that `AddState` upper-cased (default
`BLACK`). -/
theorem C9_colors :
    (∀ d : Diagram, d.stateSegments.map (fun sg => sg.c) =
      d.statesList.map (fun p => p.2.color)) ∧
    (∀ (d : Diagram) (ylim : ℚ × ℚ) (a : Annot), a ∈ d.annots ylim →
      ∃ p ∈ d.statesList, a.color = p.2.labelColor) ∧
    (∀ (d d' : Diagram) (s : State), d.AddState s = .ok d' →
      (pyUpper s.name,
        {s with name := pyUpper s.name, linksTo := pyUpper s.linksTo}) ∈ d'.statesList) ∧
    (∀ (d : Diagram) (s : State) (tok : String) (sg : Segment),
      sg ∈ (linkOneToken d s tok).1 →
      sg.c = ((pySplit (pyStrip tok) ':').get? 1).getD "BLACK") ∧
    colorDiagram.stateSegments.map (fun sg => sg.c) = ["Dark Red", "k"] ∧
    (colorDiagram.annots ((-1 : ℚ), 2)).map (fun a => a.color) = ["bAz", "bAz", "k", "k"] := by
  refine ⟨?_, ?_, ?_, ?_, by with_unfolding_all rfl, by with_unfolding_all rfl⟩
  · intro d
    unfold Diagram.stateSegments
    rw [List.map_map]
    rfl
  · intro d ylim a h
    obtain ⟨p, hp, hc | hc⟩ := mem_annots d ylim a h
    · exact ⟨p, hp, by rw [hc.1]⟩
    · exact ⟨p, hp, by rw [hc.1]⟩
  · intro d d' s h
    rw [(AddState_ok d d' s h).2]
    simp
  · intro d s tok sg h
    unfold linkOneToken at h
    cases hl : d.statesList.lookup (pySplit (pyStrip tok) ':').headI <;>
      simp only [hl] at h
    · simp at h
    · simp at h
      subst h
      cases hc : (pySplit (pyStrip tok) ':')[1]? <;> simp [hc]

/-- Witness for C9: the color pass-through facts at the color example. -/
theorem C9_colors_witness :
    colorDiagram.stateSegments.map (fun sg => sg.c) =
      colorDiagram.statesList.map (fun p => p.2.color) ∧
    (linkOneToken colorDiagram ({} : State) "B:red").1.headI.c =
      ((pySplit (pyStrip "B:red") ':').get? 1).getD "BLACK" :=
  ⟨C9_colors.1 colorDiagram,
   C9_colors.2.2.2.1 colorDiagram {} "B:red" _ (by with_unfolding_all decide)⟩

/-- C6: a `linksTo` token whose target is unknown yields no connector and a
"is unknown" warning; a known target yields exactly one dashed (`--`)
connector from the source's right point to the target's left point in the
token's color (`BLACK` when the `:color` part is omitted); and the full link
pass is the concatenation over all states and tokens, so resolution never
aborts the diagram. -/
theorem C6_link_tokens :
    (∀ (d : Diagram) (s : State) (tok : String),
      (d.statesList.lookup (pySplit (pyStrip tok) ':').headI = none →
        linkOneToken d s tok =
          ([], ["Name: " ++ (pySplit (pyStrip tok) ':').headI ++ " is unknown."])) ∧
      (∀ t : State, d.statesList.lookup (pySplit (pyStrip tok) ':').headI = some t →
        linkOneToken d s tok =
          ([{ x1 := s.rightPointx, y1 := s.rightPointy,
              x2 := t.leftPointx, y2 := t.leftPointy,
              c := ((pySplit (pyStrip tok) ':').get? 1).getD "BLACK",
              lw := 1, ls := "--", legend := none }], []))) ∧
    (∀ d : Diagram, d.linkSegments =
      (d.statesList.flatMap (fun p => stateLinkSegs d p.2),
       d.statesList.flatMap (fun p => stateLinkWarns d p.2))) := by
  refine ⟨?_, linkSegments_eq_flatMap⟩
  intro d s tok
  constructor
  · intro hl
    unfold linkOneToken
    simp only [hl]
  · intro t hl
    unfold linkOneToken
    simp only [hl]
    cases hc : (pySplit (pyStrip tok) ':')[1]? <;> simp [hc]

/-- Witness for C6: in the chain example, token `NOSUCH` warns and yields no
segment; token `C` yields the dashed black connector to `C`'s left point. -/
theorem C6_link_tokens_witness :
    linkOneToken chainDiagram ({} : State) "NOSUCH" =
      ([], ["Name: NOSUCH is unknown."]) ∧
    linkOneToken chainDiagram ({} : State) "C" =
      ([{ x1 := 0, y1 := 0, x2 := 3, y2 := -2, c := "BLACK", lw := 1, ls := "--",
          legend := none }], []) := by
  constructor
  · rw [(C6_link_tokens.1 chainDiagram ({} : State) "NOSUCH").1
      (by with_unfolding_all rfl)]
    with_unfolding_all rfl
  · rw [(C6_link_tokens.1 chainDiagram ({} : State) "C").2 cState
      (by with_unfolding_all rfl)]
    with_unfolding_all rfl

/-- C10: a state block with no `COLUMN` line leaves the State's internal
column index at its default of 1 (the `State()` default, not 0), so the
layout engine places its segment at x in [1.5, 2.5] — exactly the placement
of a declared `column = 2` (internal index 2 - 1); demonstrated alongside a
second block declaring column 3. -/
theorem C10_default_column (env : String → Option (ℕ × ℕ)) (ls : List String)
    (ps' : ParserState)
    (hc : ∀ l ∈ ls, isColumnText l = false)
    (h : processLines env {} ls = .ok ps') :
    (∀ s ∈ ps'.statesList, s.column = 1) ∧
    (∀ (d : Diagram) (p : String × State), p ∈ (d.MakeLeftRightPoints).statesList →
      p.2.column = 1 → p.2.leftPointx = 3/2 ∧ p.2.rightPointx = 5/2 ∧
        p.2.column = (2 : ℤ) - 1) ∧
    ({} : State).column = 1 ∧
    twoColDiagram.statesList.map
        (fun p => (p.1, p.2.column, p.2.leftPointx, p.2.rightPointx)) =
      [("A", 1, 3/2, 5/2), ("B", 2, 3, 4)] := by
  refine ⟨processLines_columns_one env ls {} ps' hc (by simp) h, ?_, rfl,
    by with_unfolding_all rfl⟩
  intro d p hp hcol1
  unfold Diagram.MakeLeftRightPoints at hp
  simp only [List.mem_map] at hp
  obtain ⟨q, -, rfl⟩ := hp
  dsimp only at hcol1 ⊢
  rw [hcol1]
  norm_num

/-- Witness for C10: the concrete block without a `COLUMN` line gets
column 1 and segment [3/2, 5/2]. -/
theorem C10_default_column_witness :
    noColPS.statesList.headI.column = 1 ∧
    noColDiagram.statesList.headI.2.leftPointx = 3/2 ∧
    noColDiagram.statesList.headI.2.rightPointx = 5/2 := by
  have hthm := C10_default_column noImg noColInput noColPS
    (by with_unfolding_all decide) (by with_unfolding_all rfl)
  refine ⟨hthm.1 _ (by with_unfolding_all decide), ?_, ?_⟩
  · exact (hthm.2.1 noColPre noColDiagram.statesList.headI
      (by with_unfolding_all decide) (by with_unfolding_all rfl)).1
  · exact (hthm.2.1 noColPre noColDiagram.statesList.headI
      (by with_unfolding_all decide) (by with_unfolding_all rfl)).2.1

/-- C2: a state's final effective energy is `statedEnergy - globalShift +
perStateEnergyShift` (the shift is subtracted from the stored raw energy
exactly once, at registration into the Diagram after parsing, and the
`energy` property adds the per-state shift); and the result is independent
of whether the global-shift line precedes or follows the state blocks,
because the loop body never reads `global_shift`. -/
theorem C2_energy_composition :
    (∀ (g : ℚ) (s : State),
      State.energy {s with rawEnergy := s.rawEnergy - g} =
        s.rawEnergy - g + s.energy_shift) ∧
    (∀ (env : String → Option (ℕ × ℕ)) (sl : String) (g : ℚ) (ls : List String)
      (ps' : ParserState),
      (∀ q : ParserState, q.stateBlock = false → processLine env q sl = .ok (setShift q g)) →
      (∀ l ∈ ls, isShiftText l = false) →
      processLines env {} ls = .ok ps' →
      ps'.stateBlock = false →
      ReadInput env (sl :: ls) = ReadInput env (ls ++ [sl])) ∧
    (ReadInput noImg ("global-shift = 5" :: shiftDemoLines)).map
        (fun d => d.statesList.map (fun p => p.2.energy)) = .ok [-4] := by
  refine ⟨fun g s => rfl, ?_, by with_unfolding_all rfl⟩
  intro env sl g ls ps' hsl hns h hb
  have h1 : processLines env {} (sl :: ls) = .ok (setShift ps' g) := by
    calc processLines env {} (sl :: ls)
        = processLines env (setShift {} g) ls := by
          simp only [processLines]
          rw [hsl {} rfl]
      _ = (processLines env {} ls).map (setShift · g) :=
          processLines_setShift env ls {} g hns
      _ = .ok (setShift ps' g) := by rw [h]; rfl
  have h2 : processLines env {} (ls ++ [sl]) = .ok (setShift ps' g) := by
    calc processLines env {} (ls ++ [sl])
        = (match processLines env {} ls with
            | .ok q => processLines env q [sl]
            | .error e => .error e) := processLines_append env ls [sl] {}
      _ = processLines env ps' [sl] := by rw [h]
      _ = .ok (setShift ps' g) := by
          simp only [processLines]
          rw [hsl ps' hb]
  unfold ReadInput
  rw [h1, h2]

/-- Witness for C2: the registration formula at the default state, and the
order-independence of `global-shift = 5` around a one-block input. -/
theorem C2_energy_composition_witness :
    State.energy {({} : State) with rawEnergy := ({} : State).rawEnergy - 5} =
      ({} : State).rawEnergy - 5 + ({} : State).energy_shift ∧
    ReadInput noImg ("global-shift = 5" :: shiftDemoLines) =
      ReadInput noImg (shiftDemoLines ++ ["global-shift = 5"]) := by
  refine ⟨C2_energy_composition.1 5 {}, ?_⟩
  refine C2_energy_composition.2.1 noImg "global-shift = 5" 5 shiftDemoLines shiftDemoPS
    ?_ (by with_unfolding_all decide) (by with_unfolding_all rfl)
    (by with_unfolding_all rfl)
  intro q hq
  obtain ⟨sb, a1, a2, a3, a4, a5, a6, a7, a8, a9⟩ := q
  cases sb with
  | false => with_unfolding_all rfl
  | true => exact Bool.noConfusion hq

end EnergyLeveller
